import Mathlib

/-!
Shallow embedding of the tgtester diagnostic tool
(packages `internal/config`, `internal/sender`, `internal/server`,
`internal/telegram` of the Go repository).

Modelling conventions:
- A Go buffered channel of log entries is a `BoundedChan`: its capacity
  together with the queued contents.  A `select`-with-`default` send is
  `trySend`: it appends when the buffer has spare capacity and leaves the
  channel untouched otherwise.
- Wall-clock reads, random draws, HTTP round-trip results and
  context-cancellation observations are oracle inputs passed explicitly
  to each function.  Durations and timestamps are natural numbers
  (nanoseconds); duration rendering uses decimal `Nat.repr` instead of
  Go's unit-suffixed formatting, which does not affect which values a
  message carries.
- Fallible operations return the successor state together with an
  `Except String String` response, never an exception.
-/

/-- `sender.LogEntry` (src/internal/sender/sender.go): one log record with a
timestamp, a severity level and a message. -/
structure LogEntry where
  time : Nat
  level : String
  message : String
deriving DecidableEq, Repr

/-- A Go buffered channel of `LogEntry`, seen as its capacity and its queued
content (oldest first). -/
structure BoundedChan where
  capacity : Nat
  buffer : List LogEntry
deriving DecidableEq, Repr

/-- A non-blocking channel send (`select` with a `default` branch): the entry
is appended when the buffer has spare capacity and dropped otherwise.  The
returned flag tells whether the entry was accepted. -/
def trySend (ch : BoundedChan) (e : LogEntry) : BoundedChan × Bool :=
  if ch.buffer.length < ch.capacity then
    ({ ch with buffer := ch.buffer ++ [e] }, true)
  else
    (ch, false)

/-- `Sender.log` (sender.go lines 115-125): stamp the entry and publish it into
the log channel without blocking; a full channel drops the entry. -/
def senderPublishLog (ch : BoundedChan) (now : Nat) (level message : String) : BoundedChan :=
  (trySend ch ⟨now, level, message⟩).1

/-- `Server.log` (handlers.go lines 198-210): identical non-blocking publish
into the server's intake channel. -/
def serverPublishLog (ch : BoundedChan) (now : Nat) (level message : String) : BoundedChan :=
  (trySend ch ⟨now, level, message⟩).1

/-- Intake queue capacity: `make(chan sender.LogEntry, 100)` (handlers.go line 30). -/
def logChanCapacity : Nat := 100

/-- Per-subscriber queue capacity: `make(chan sender.LogEntry, 10)`
(handlers.go line 163). -/
def subscriberCapacity : Nat := 10

/-- One fan-out step of `Server.StartLogBroadcaster` (handlers.go lines
213-226): push one drained entry into every currently registered subscriber
queue, non-blocking for each subscriber.  The Go registry is a map iterated in
arbitrary order; it is modelled as a list, which fixes an order but keeps the
per-subscriber behaviour pointwise. -/
def broadcastEvent (subs : List BoundedChan) (e : LogEntry) : List BoundedChan :=
  subs.map (fun sub => (trySend sub e).1)

/-- The broadcaster goroutine: drain the intake queue in order, fanning each
entry out to the subscribers. -/
def broadcastAll (intake : List LogEntry) (subs : List BoundedChan) : List BoundedChan :=
  intake.foldl broadcastEvent subs

/-- `config.Config` (src/internal/config/config.go). -/
structure Config where
  proxyURL : String
  timeout : Nat
  interval : Nat
  chatID : String
  botToken : String
  messageThreadID : String
  disableKeepAlive : Bool
deriving DecidableEq, Repr

/-- `Config.Validate` (config.go lines 19-27): `ChatID` and `BotToken` are
required; the first missing field's error is returned. -/
def validateConfig (c : Config) : Option String :=
  if c.chatID = "" then some "chat ID обязателен для указания"
  else if c.botToken = "" then some "токен бота обязателен для указания"
  else none

/-- `config.Default` (config.go lines 30-35). -/
def defaultConfig : Config :=
  { proxyURL := ""
    timeout := 60000000000
    interval := 3000000000
    chatID := ""
    botToken := ""
    messageThreadID := ""
    disableKeepAlive := false }

/-- Observations of `context.Context.Err()`: `nil` is `none`, otherwise the
deadline-exceeded or explicit-cancellation cause. -/
inductive CtxErr where
  | deadlineExceeded
  | canceled
deriving DecidableEq, Repr

/-- What the Go standard library hands back to `Client.SendMessage` for one
round trip: an oracle covering request construction, the transport, and the
body read. -/
inductive HttpResult where
  /-- `http.NewRequestWithContext` returned an error. -/
  | reqError (msg : String)
  /-- `c.httpClient.Do` returned an error (dial, TLS, write, read, deadline,
  or cancellation surfaced by the transport). -/
  | doError (msg : String)
  /-- A response arrived with this status code; the second component is the
  result of `io.ReadAll(resp.Body)`. -/
  | resp (status : Nat) (bodyRead : Except String String)
deriving Repr

/-- `Client.SendMessage` (src/internal/telegram/client.go lines 104-296).
Returns the emitted log events in order together with `some errorMessage`
when the Go function returns a non-nil error and `none` on success.
`ctxErr` is what `ctx.Err()` returns when inspected in the failure branch.
The `httptrace` stage callbacks fire inside the stdlib transport and are
modelled separately; response-header detail events and `url.Error` detail
events are folded into the events kept here. -/
def sendMessage (chatID botToken threadID message : String) (ctxErr : Option CtxErr)
    (httpResult : HttpResult) (now totalTime readTime : Nat) :
    List LogEntry × Option String :=
  let prep : List LogEntry := [⟨now, "info", "Подготовка запроса к api.telegram.org"⟩]
  match httpResult with
  | .reqError e =>
      (prep ++ [⟨now, "error", "Ошибка создания запроса: " ++ e⟩],
       some ("создание запроса: " ++ e))
  | .doError e =>
      (prep ++ [⟨now, "info", "Выполнение HTTP запроса..."⟩,
        ⟨now, "error", "HTTP запрос ошибка за " ++ Nat.repr totalTime ++ ": " ++ e⟩]
        ++ (match ctxErr with
            | some .deadlineExceeded => [⟨now, "error", "Причина: превышен таймаут контекста"⟩]
            | some .canceled => [⟨now, "error", "Причина: контекст отменён"⟩]
            | none => []),
       some ("выполнение запроса: " ++ e))
  | .resp status bodyRead =>
      let received : List LogEntry :=
        prep ++ [⟨now, "info", "Выполнение HTTP запроса..."⟩,
          ⟨now, "info", "📥 Ответ получен. Статус: " ++ Nat.repr status
            ++ ", Время: " ++ Nat.repr totalTime⟩]
      match bodyRead with
      | .error re =>
          (received ++ [⟨now, "error", "Ошибка чтения тела ответа за "
              ++ Nat.repr readTime ++ ": " ++ re⟩],
           some ("чтение ответа: " ++ re))
      | .ok body =>
          let readDone : LogEntry :=
            ⟨now, "info", "Тело ответа прочитано за " ++ Nat.repr readTime
              ++ ", размер: " ++ Nat.repr body.utf8ByteSize ++ " байт"⟩
          if status = 200 then
            (received ++ [readDone,
              ⟨now, "info", "Запрос успешен. Общее время: " ++ Nat.repr totalTime⟩],
             none)
          else
            (received ++ [readDone,
              ⟨now, "error", "Telegram API ошибка: status=" ++ Nat.repr status
                ++ ", body=" ++ body⟩],
             some ("status is not ok: " ++ Nat.repr status ++ ", body: " ++ body))

/-- The `OnProxyConnectResponse` callback installed by `NewClient` when a
proxy endpoint is configured (client.go lines 74-81): every CONNECT response
is logged with its status, and a non-200 status additionally produces an
error-severity event; the callback itself always returns nil. -/
def onProxyConnectResponse (now : Nat) (proxyHost : String) (statusCode : Nat)
    (statusText : String) : List LogEntry :=
  [⟨now, "info", "🔀 Proxy CONNECT: ответ от прокси " ++ proxyHost ++ " -> статус "
      ++ Nat.repr statusCode ++ " " ++ statusText⟩]
  ++ (if statusCode = 200 then []
      else [⟨now, "error", "🔀 Proxy CONNECT: туннель не установлен, код "
          ++ Nat.repr statusCode⟩])

/-- net/http CONNECT semantics (external to this repository): the transport
establishes the proxy tunnel exactly when the CONNECT response status is 200;
any other status fails the connection attempt at the transport layer even
though the logging callback returns nil. -/
def tunnelEstablished (statusCode : Nat) : Bool :=
  statusCode == 200

/-- `Sender.generateMessage` (sender.go lines 103-112).  The five `rand.Intn`
draws are oracle inputs: the Go call sites guarantee `r1 < 20`, `r2 < 512`,
`r3 < 30`, `r4 < 899` (used as `100+r4`) and `r5 < 38000` (used as
`10000+r5`). -/
def generateMessage (r1 r2 r3 r4 r5 : Nat) : String :=
  "*iPhone " ++ Nat.repr r1 ++ ", " ++ Nat.repr r2 ++ " ГБ*\n💵 *" ++ Nat.repr r3
    ++ " " ++ Nat.repr (100 + r4)
    ++ "  ₽*  ⭐️ *0\\.0* *\\(0\\)*\nhttps://www\\.avito\\.ru/79051"
    ++ Nat.repr (10000 + r5)

/-- The oracle for one iteration of the send loop: everything the environment
(clock, random source, network, context) feeds that cycle. -/
structure CycleObs where
  /-- Wall clock at cycle start (`requestStart`). -/
  now : Nat
  /-- The five `rand.Intn` draws of `generateMessage`. -/
  r1 : Nat
  r2 : Nat
  r3 : Nat
  r4 : Nat
  r5 : Nat
  /-- What the HTTP stack returns for this cycle's call. -/
  http : HttpResult
  /-- `workerCtx.Err()` as inspected inside `SendMessage` on failure. -/
  ctxErrAtFail : Option CtxErr
  /-- Parent `ctx.Err()` as inspected in the sender's error branch. -/
  parentCtxErr : Option CtxErr
  /-- `time.Since(requestStart)` right after the call returns. -/
  requestDuration : Nat
  /-- `time.Since(requestStart)` re-measured at the cadence decision. -/
  elapsed : Nat
  /-- Total round-trip time measured inside `SendMessage`. -/
  totalTime : Nat
  /-- Body-read time measured inside `SendMessage`. -/
  readTime : Nat
  /-- Whether `ctx.Done()` is ready at this cycle's cancellation check
  (the `select` inside the sleep, or the `select`/`default` otherwise). -/
  cancelObserved : Bool
deriving Repr

/-- What the loop does after a cycle: stop, or run the next cycle after
sleeping `sleepFor` nanoseconds (0 = immediately). -/
inductive LoopAction where
  | halt
  | next (sleepFor : Nat)
deriving DecidableEq, Repr

/-- The cadence decision closing one cycle (sender.go lines 79-98): sleep the
remainder of the interval — a sleep the cancellation signal can cut short —
or warn about the overrun and continue after a single non-blocking
cancellation check. -/
def cadenceDecision (cfg : Config) (now elapsed : Nat) (cancelObserved : Bool) :
    List LogEntry × LoopAction :=
  if elapsed < cfg.interval then
    let sleepDuration := cfg.interval - elapsed
    let waitMsg : LogEntry :=
      ⟨now, "info", "Ожидание " ++ Nat.repr sleepDuration ++ " до следующего запроса..."⟩
    if cancelObserved then
      ([waitMsg, ⟨now, "info", "Получен сигнал остановки"⟩], .halt)
    else
      ([waitMsg], .next sleepDuration)
  else
    let warnMsg : LogEntry :=
      ⟨now, "warn", "Запрос занял больше интервала (" ++ Nat.repr elapsed ++ " > "
        ++ Nat.repr cfg.interval ++ "), следующий запрос сразу"⟩
    if cancelObserved then
      ([warnMsg, ⟨now, "info", "Получен сигнал остановки"⟩], .halt)
    else
      ([warnMsg], .next 0)

/-- Result of one loop iteration: the events it emitted (in emission order),
how many `SendMessage` calls it issued, and what the loop does next. -/
structure CycleResult where
  events : List LogEntry
  calls : Nat
  action : LoopAction
deriving Repr

/-- The cycle-header events (sender.go lines 53-60): request number, start
time, worker-context creation and generated-message size. -/
def cycleHeader (cfg : Config) (requestNum : Nat) (obs : CycleObs) : List LogEntry :=
  [⟨obs.now, "info", "---------- Запрос #" ++ Nat.repr requestNum ++ " ----------"⟩,
   ⟨obs.now, "info", "Время начала: " ++ Nat.repr obs.now⟩,
   ⟨obs.now, "info", "Контекст создан с таймаутом " ++ Nat.repr cfg.timeout⟩,
   ⟨obs.now, "info", "Сообщение сгенерировано ("
      ++ Nat.repr (generateMessage obs.r1 obs.r2 obs.r3 obs.r4 obs.r5).utf8ByteSize
      ++ " байт)"⟩]

/-- This cycle's single `SendMessage` invocation (sender.go line 62), on the
start-time configuration and the freshly generated payload. -/
def cycleCall (cfg : Config) (obs : CycleObs) : List LogEntry × Option String :=
  sendMessage cfg.chatID cfg.botToken cfg.messageThreadID
    (generateMessage obs.r1 obs.r2 obs.r3 obs.r4 obs.r5)
    obs.ctxErrAtFail obs.http obs.now obs.totalTime obs.readTime

/-- The outcome events of one cycle (sender.go lines 66-76): error-severity
result and detail events (plus the parent-context cause when it is set) on
failure, one info-severity result event on success. -/
def cycleOutcomeEvents (requestNum : Nat) (obs : CycleObs) (callErr : Option String) :
    List LogEntry :=
  match callErr with
  | some e =>
      [⟨obs.now, "error", "РЕЗУЛЬТАТ #" ++ Nat.repr requestNum ++ ": ОШИБКА за "
          ++ Nat.repr obs.requestDuration⟩,
       ⟨obs.now, "error", "Детали ошибки: " ++ e⟩]
      ++ (match obs.parentCtxErr with
          | some .deadlineExceeded =>
              [⟨obs.now, "error", "Контекст родителя: context deadline exceeded"⟩]
          | some .canceled => [⟨obs.now, "error", "Контекст родителя: context canceled"⟩]
          | none => [])
  | none =>
      [⟨obs.now, "info", "РЕЗУЛЬТАТ #" ++ Nat.repr requestNum ++ ": УСПЕХ за "
          ++ Nat.repr obs.requestDuration⟩]

/-- One iteration of the `for` loop in `Sender.Start` (sender.go lines
49-99): log the cycle header, issue exactly one call, log its outcome
(error details when it failed), then take the cadence decision. -/
def cycleStep (cfg : Config) (requestNum : Nat) (obs : CycleObs) : CycleResult :=
  ⟨cycleHeader cfg requestNum obs ++ (cycleCall cfg obs).1
      ++ cycleOutcomeEvents requestNum obs (cycleCall cfg obs).2
      ++ (cadenceDecision cfg obs.now obs.elapsed obs.cancelObserved).1,
   1,
   (cadenceDecision cfg obs.now obs.elapsed obs.cancelObserved).2⟩

/-- Result of running the loop against a finite oracle: all emitted events,
the number of calls issued, and whether the loop returned (`stopped = false`
means the oracle ran out with the loop still running). -/
structure LoopResult where
  events : List LogEntry
  calls : Nat
  stopped : Bool
deriving Repr

/-- The `for` loop of `Sender.Start`, driven by one `CycleObs` per cycle.
`requestNum` is the counter value before the next increment. -/
def loopRun (cfg : Config) (requestNum : Nat) : List CycleObs → LoopResult
  | [] => ⟨[], 0, false⟩
  | obs :: rest =>
    let r := cycleStep cfg (requestNum + 1) obs
    match r.action with
    | .halt => ⟨r.events, r.calls, true⟩
    | .next _ =>
      let tail := loopRun cfg (requestNum + 1) rest
      ⟨r.events ++ tail.events, r.calls + tail.calls, tail.stopped⟩

/-- `Sender.Start` (sender.go lines 37-100): the four banner events, then the
cycle loop starting from `requestNum = 0`. -/
def senderStart (cfg : Config) (now : Nat) (obsList : List CycleObs) : LoopResult :=
  let banner : List LogEntry :=
    [⟨now, "info", "========== ЗАПУСК ОТПРАВКИ =========="⟩,
     ⟨now, "info", "Конфигурация: Таймаут=" ++ Nat.repr cfg.timeout
        ++ ", Интервал=" ++ Nat.repr cfg.interval⟩,
     ⟨now, "info", "Chat ID: " ++ cfg.chatID⟩,
     ⟨now, "info", "Прокси: " ++ (if cfg.proxyURL = "" then "не используется" else cfg.proxyURL)⟩]
  let r := loopRun cfg 0 obsList
  ⟨banner ++ r.events, r.calls, r.stopped⟩

/-- Number of warning-severity events in a list. -/
def warnCount (events : List LogEntry) : Nat :=
  (events.filter (fun e => e.level == "warn")).length

/-- The `Server`'s control state (handlers.go): the stored configuration and,
when a sender is active (`senderCancel != nil`), the configuration the running
sender was built with.  A `*config.Config` pointer is modelled by its value:
no code path mutates a `Config` in place, so the value a pointer refers to at
start time never changes. -/
structure ServerState where
  config : Config
  running : Option Config
deriving Repr

/-- `Server.Start` (handlers.go lines 78-117): reject when a sender is already
running, then validate the stored configuration, then build the client —
`clientOk` abstracts `telegram.NewClient`, which fails only on an unparsable
proxy URL — and finally hand the current configuration pointer to the new
sender. -/
def serverStartOp (s : ServerState) (clientOk : Bool) : ServerState × Except String String :=
  if s.running.isSome then (s, .error "Отправка уже запущена")
  else
    match validateConfig s.config with
    | some e => (s, .error e)
    | none =>
      if clientOk then ({ s with running := some s.config }, .ok "started")
      else (s, .error "Ошибка создания клиента")

/-- `Server.Stop` (handlers.go lines 120-142): reject when no sender is
running, otherwise cancel and clear it. -/
def serverStopOp (s : ServerState) : ServerState × Except String String :=
  if s.running.isSome then ({ s with running := none }, .ok "stopped")
  else (s, .error "Отправка не запущена")

/-- `Server.UpdateConfig` (handlers.go lines 50-75): after validation the
stored configuration pointer is replaced wholesale; the running sender keeps
the pointer it was given at start time. -/
def updateConfigOp (s : ServerState) (newConfig : Config) : ServerState × Except String String :=
  match validateConfig newConfig with
  | some e => (s, .error e)
  | none => ({ s with config := newConfig }, .ok "ok")

/-- `Server.GetStatus` (handlers.go lines 145-154). -/
def serverStatus (s : ServerState) : Bool :=
  s.running.isSome

/-- The largest UTF-8 byte size `generateMessage` can produce: the 82
template bytes plus the maximal decimal widths 2+3+2+3+5 of its five
numeric components. -/
def messageMaxBytes : Nat := 97

/-! ## Helper lemmas -/

theorem digitChar_utf8Size (m : Nat) (hm : m < 10) : (Nat.digitChar m).utf8Size = 1 := by
  interval_cases m <;> rfl

theorem utf8Len_toDigitsCore_le : ∀ (fuel n k : Nat) (ds : List Char), 0 < k → n < 10 ^ k →
    String.utf8Len (Nat.toDigitsCore 10 fuel n ds) ≤ String.utf8Len ds + k
  | 0, n, k, ds, _, _ => by
    simp [Nat.toDigitsCore]
  | fuel + 1, n, k, ds, hk, h => by
    rw [Nat.toDigitsCore]
    by_cases h10 : n / 10 = 0
    · rw [if_pos h10]
      have hd := digitChar_utf8Size (n % 10) (Nat.mod_lt _ (by norm_num))
      simp [String.utf8Len_cons, hd]
      omega
    · rw [if_neg h10]
      have hk2 : 2 ≤ k := by
        by_contra hcon
        have hk1 : k = 1 := by omega
        subst hk1
        simp at h
        exact h10 (Nat.div_eq_of_lt h)
      have hpow : 10 ^ (k - 1) * 10 = 10 ^ k := by
        rw [← pow_succ]
        congr 1
        omega
      have hlt : n / 10 < 10 ^ (k - 1) := by
        rw [Nat.div_lt_iff_lt_mul (by norm_num : (0:Nat) < 10)]
        omega
      have IH := utf8Len_toDigitsCore_le fuel (n / 10) (k - 1)
        (Nat.digitChar (n % 10) :: ds) (by omega) hlt
      have hd := digitChar_utf8Size (n % 10) (Nat.mod_lt _ (by norm_num))
      simp [String.utf8Len_cons, hd] at IH
      omega

/-- `Nat.repr` of a number below `10 ^ k` takes at most `k` bytes. -/
theorem repr_utf8ByteSize_le (n k : Nat) (hk : 0 < k) (h : n < 10 ^ k) :
    (Nat.repr n).utf8ByteSize ≤ k := by
  show (List.asString (Nat.toDigits 10 n)).utf8ByteSize ≤ k
  rw [Nat.toDigits]
  have := utf8Len_toDigitsCore_le (n + 1) n k [] hk h
  simpa [List.asString, String.utf8ByteSize_mk] using this

theorem strBytes_append (a b : String) :
    (a ++ b).utf8ByteSize = a.utf8ByteSize + b.utf8ByteSize := by
  cases a with
  | mk l =>
    cases b with
    | mk m =>
      show (String.mk (l ++ m)).utf8ByteSize = _
      simp [String.utf8ByteSize_mk, String.utf8Len_append]

/-! ## Claims -/

/-- C4: publishing a log event into the intake queue — by the sender's or the
server's log function — returns with the queue unchanged and the event
dropped whenever the queue is full, and appends the event otherwise; the
publisher is never blocked (both functions are total and case-complete over
every queue state). -/
theorem logIntake_nonblocking (ch : BoundedChan) (now : Nat) (level message : String) :
    (ch.capacity ≤ ch.buffer.length →
      senderPublishLog ch now level message = ch ∧
      serverPublishLog ch now level message = ch) ∧
    (ch.buffer.length < ch.capacity →
      (senderPublishLog ch now level message).buffer = ch.buffer ++ [⟨now, level, message⟩] ∧
      (serverPublishLog ch now level message).buffer = ch.buffer ++ [⟨now, level, message⟩]) := by
  by_cases hc : ch.buffer.length < ch.capacity <;>
    simp [senderPublishLog, serverPublishLog, trySend, hc]

/-- C4 witness: a saturated one-slot queue drops the event unchanged, and a
queue with spare capacity accepts it. -/
theorem logIntake_nonblocking_witness :
    senderPublishLog ⟨1, [⟨0, "info", "x"⟩]⟩ 5 "warn" "y" = ⟨1, [⟨0, "info", "x"⟩]⟩ ∧
    (senderPublishLog ⟨2, []⟩ 5 "info" "z").buffer = [⟨5, "info", "z"⟩] :=
  ⟨((logIntake_nonblocking ⟨1, [⟨0, "info", "x"⟩]⟩ 5 "warn" "y").1 (by decide)).1,
   by simpa using ((logIntake_nonblocking ⟨2, []⟩ 5 "info" "z").2 (by decide)).1⟩

/-- C5: the fan-out step treats each registered subscriber independently:
the subscriber list keeps its length, a subscriber whose queue is full keeps
its queue unchanged (the event is dropped for it only), and every subscriber
with spare queue capacity receives the event appended to its own queue. -/
theorem broadcast_per_subscriber_isolation (subs : List BoundedChan) (e : LogEntry)
    (i : Nat) (h : i < subs.length) :
    (broadcastEvent subs e).length = subs.length ∧
    ((subs.get ⟨i, h⟩).capacity ≤ (subs.get ⟨i, h⟩).buffer.length →
      (broadcastEvent subs e)[i]? = some (subs.get ⟨i, h⟩)) ∧
    ((subs.get ⟨i, h⟩).buffer.length < (subs.get ⟨i, h⟩).capacity →
      (broadcastEvent subs e)[i]? =
        some ⟨(subs.get ⟨i, h⟩).capacity, (subs.get ⟨i, h⟩).buffer ++ [e]⟩) := by
  refine ⟨by simp [broadcastEvent], ?_, ?_⟩
  · intro hfull
    simp only [broadcastEvent, List.getElem?_map, List.getElem?_eq_getElem h,
      Option.map_some', List.get_eq_getElem] at *
    rw [trySend, if_neg (by omega)]
  · intro hroom
    simp only [broadcastEvent, List.getElem?_map, List.getElem?_eq_getElem h,
      Option.map_some', List.get_eq_getElem] at *
    rw [trySend, if_pos (by omega)]

/-- C5 witness: with a saturated zero-capacity subscriber next to one with
spare capacity, the event is dropped only for the former and delivered to the
latter. -/
theorem broadcast_per_subscriber_isolation_witness :
    (broadcastEvent [⟨0, []⟩, ⟨2, []⟩] ⟨7, "info", "m"⟩)[0]? = some ⟨0, []⟩ ∧
    (broadcastEvent [⟨0, []⟩, ⟨2, []⟩] ⟨7, "info", "m"⟩)[1]? = some ⟨2, [⟨7, "info", "m"⟩]⟩ :=
  ⟨(broadcast_per_subscriber_isolation [⟨0, []⟩, ⟨2, []⟩] ⟨7, "info", "m"⟩ 0
      (by decide)).2.1 (by decide),
   by simpa using (broadcast_per_subscriber_isolation [⟨0, []⟩, ⟨2, []⟩] ⟨7, "info", "m"⟩ 1
      (by decide)).2.2 (by decide)⟩

/-- C9: for every admissible sequence of the five random draws, the generated
payload's UTF-8 byte length is bounded by the fixed constant
`messageMaxBytes` (82 template bytes plus maximal decimal widths of the five
components drawn from Intn(20), Intn(512), Intn(30), 100+Intn(899) and
10000+Intn(38000)). -/
theorem generateMessage_bounded (r1 r2 r3 r4 r5 : Nat)
    (h1 : r1 < 20) (h2 : r2 < 512) (h3 : r3 < 30) (h4 : r4 < 899) (h5 : r5 < 38000) :
    (generateMessage r1 r2 r3 r4 r5).utf8ByteSize ≤ messageMaxBytes := by
  have p2 : (10:Nat) ^ 2 = 100 := by norm_num
  have p3 : (10:Nat) ^ 3 = 1000 := by norm_num
  have p5 : (10:Nat) ^ 5 = 100000 := by norm_num
  have b1 := repr_utf8ByteSize_le r1 2 (by norm_num) (by omega)
  have b2 := repr_utf8ByteSize_le r2 3 (by norm_num) (by omega)
  have b3 := repr_utf8ByteSize_le r3 2 (by norm_num) (by omega)
  have b4 := repr_utf8ByteSize_le (100 + r4) 3 (by norm_num) (by omega)
  have b5 := repr_utf8ByteSize_le (10000 + r5) 5 (by norm_num) (by omega)
  simp only [generateMessage, strBytes_append]
  have e1 : ("*iPhone ").utf8ByteSize = 8 := rfl
  have e2 : (", ").utf8ByteSize = 2 := rfl
  have e3 : (" ГБ*\n💵 *").utf8ByteSize = 13 := rfl
  have e4 : (" ").utf8ByteSize = 1 := rfl
  have e5 : ("  ₽*  ⭐️ *0\\.0* *\\(0\\)*\nhttps://www\\.avito\\.ru/79051").utf8ByteSize = 58 := rfl
  simp only [messageMaxBytes]
  omega

/-- C9 witness: the bound holds at the maximal draws. -/
theorem generateMessage_bounded_witness :
    (generateMessage 19 511 29 898 37999).utf8ByteSize ≤ messageMaxBytes :=
  generateMessage_bounded 19 511 29 898 37999 (by decide) (by decide) (by decide)
    (by decide) (by decide)

/-- C6: at most one send loop is active at a time — a start request succeeds
only from the idle state and installs the start-time configuration; starting
while a loop runs, starting with a missing ChatID or BotToken, and stopping
with no loop running are all rejected with a synchronous error and leave the
server state untouched. -/
theorem server_start_stop_guards (s : ServerState) (clientOk : Bool) :
    (s.running.isSome = true →
      serverStartOp s clientOk = (s, .error "Отправка уже запущена")) ∧
    (s.running = none → s.config.chatID = "" →
      serverStartOp s clientOk = (s, .error "chat ID обязателен для указания")) ∧
    (s.running = none → s.config.chatID ≠ "" → s.config.botToken = "" →
      serverStartOp s clientOk = (s, .error "токен бота обязателен для указания")) ∧
    (s.running = none → serverStopOp s = (s, .error "Отправка не запущена")) ∧
    (∀ s' msg, serverStartOp s clientOk = (s', Except.ok msg) →
      s.running = none ∧ s'.running = some s.config) := by
  refine ⟨?_, ?_, ?_, ?_, ?_⟩
  · intro hrun
    simp [serverStartOp, hrun]
  · intro hrun hchat
    simp [serverStartOp, hrun, validateConfig, hchat]
  · intro hrun hchat hbot
    simp [serverStartOp, hrun, validateConfig, hchat, hbot]
  · intro hrun
    simp [serverStopOp, hrun]
  · intro s' msg hok
    unfold serverStartOp at hok
    by_cases hrun : s.running.isSome = true
    · rw [if_pos hrun] at hok
      have hsnd := congrArg Prod.snd hok
      simp at hsnd
    · rw [if_neg hrun] at hok
      have hnone : s.running = none := by
        cases hv : s.running
        · rfl
        · rw [hv] at hrun
          simp at hrun
      refine ⟨hnone, ?_⟩
      cases hval : validateConfig s.config
      · simp only [hval] at hok
        by_cases hc : clientOk = true
        · rw [if_pos hc] at hok
          have hfst := congrArg Prod.fst hok
          simp only [Prod.fst] at hfst
          rw [← hfst]
        · rw [if_neg hc] at hok
          have hsnd := congrArg Prod.snd hok
          simp at hsnd
      · simp only [hval] at hok
        have hsnd := congrArg Prod.snd hok
        simp at hsnd

/-- C6 witness: with a valid idle configuration a second start after a
successful one is rejected unchanged, and stopping the idle server is
rejected unchanged. -/
theorem server_start_stop_guards_witness :
    serverStartOp ⟨⟨"", 1, 1, "c", "t", "", false⟩, some ⟨"", 1, 1, "c", "t", "", false⟩⟩ true
      = (⟨⟨"", 1, 1, "c", "t", "", false⟩, some ⟨"", 1, 1, "c", "t", "", false⟩⟩,
         .error "Отправка уже запущена") ∧
    serverStopOp ⟨⟨"", 1, 1, "c", "t", "", false⟩, none⟩
      = (⟨⟨"", 1, 1, "c", "t", "", false⟩, none⟩, .error "Отправка не запущена") :=
  ⟨(server_start_stop_guards
      ⟨⟨"", 1, 1, "c", "t", "", false⟩, some ⟨"", 1, 1, "c", "t", "", false⟩⟩ true).1
      (by decide),
   (server_start_stop_guards ⟨⟨"", 1, 1, "c", "t", "", false⟩, none⟩ true).2.2.2.1 rfl⟩

/-- C10: updating the configuration replaces the server's stored
configuration wholesale but leaves the running sender's start-time
configuration untouched: the interval, timeout, chat ID, token and proxy the
active loop uses are still exactly those captured when it was started. -/
theorem updateConfig_preserves_running_sender (s : ServerState) (c newConfig : Config)
    (hrun : s.running = some c) (hval : validateConfig newConfig = none) :
    (updateConfigOp s newConfig).1.config = newConfig ∧
    (updateConfigOp s newConfig).1.running = some c ∧
    (∀ rc, (updateConfigOp s newConfig).1.running = some rc →
      rc.interval = c.interval ∧ rc.timeout = c.timeout ∧ rc.chatID = c.chatID ∧
      rc.botToken = c.botToken ∧ rc.proxyURL = c.proxyURL) := by
  refine ⟨?_, ?_, ?_⟩
  · simp [updateConfigOp, hval]
  · simp [updateConfigOp, hval, hrun]
  · intro rc hrc
    simp [updateConfigOp, hval, hrun] at hrc
    subst hrc
    exact ⟨rfl, rfl, rfl, rfl, rfl⟩

/-- C10 witness: replacing the configuration under a running loop leaves the
loop's start-time snapshot fully intact. -/
theorem updateConfig_preserves_running_sender_witness :
    (updateConfigOp ⟨⟨"", 1, 1, "c", "t", "", false⟩, some ⟨"", 1, 1, "c", "t", "", false⟩⟩
        ⟨"p", 9, 9, "c2", "t2", "", true⟩).1.config = ⟨"p", 9, 9, "c2", "t2", "", true⟩ ∧
    (updateConfigOp ⟨⟨"", 1, 1, "c", "t", "", false⟩, some ⟨"", 1, 1, "c", "t", "", false⟩⟩
        ⟨"p", 9, 9, "c2", "t2", "", true⟩).1.running = some ⟨"", 1, 1, "c", "t", "", false⟩ :=
  ⟨(updateConfig_preserves_running_sender
      ⟨⟨"", 1, 1, "c", "t", "", false⟩, some ⟨"", 1, 1, "c", "t", "", false⟩⟩
      ⟨"", 1, 1, "c", "t", "", false⟩ ⟨"p", 9, 9, "c2", "t2", "", true⟩ rfl (by decide)).1,
   (updateConfig_preserves_running_sender
      ⟨⟨"", 1, 1, "c", "t", "", false⟩, some ⟨"", 1, 1, "c", "t", "", false⟩⟩
      ⟨"", 1, 1, "c", "t", "", false⟩ ⟨"p", 9, 9, "c2", "t2", "", true⟩ rfl (by decide)).2.1⟩

/-- C7: `SendMessage` classifies every completed call into exactly one
outcome: it returns success (`none`) iff the response status is 200 and the
body was read without error; a non-200 status yields a typed failure value
carrying the status code and the body verbatim instead of raising; a
transport failure yields its own failure value, and the runs under
deadline-exceeded, explicit-cancellation and no context cause are pairwise
distinguishable by the logged cancellation-cause event. -/
theorem sendMessage_outcome_classification (chatID botToken threadID message : String)
    (ctxErr : Option CtxErr) (httpResult : HttpResult) (now totalTime readTime : Nat) :
    ((sendMessage chatID botToken threadID message ctxErr httpResult now totalTime readTime).2
        = none ↔ ∃ body, httpResult = .resp 200 (.ok body)) ∧
    (∀ status body, httpResult = .resp status (.ok body) → status ≠ 200 →
      (sendMessage chatID botToken threadID message ctxErr httpResult now totalTime readTime).2
        = some ("status is not ok: " ++ Nat.repr status ++ ", body: " ++ body)) ∧
    (∀ e, httpResult = .doError e →
      (sendMessage chatID botToken threadID message ctxErr httpResult now totalTime readTime).2
        = some ("выполнение запроса: " ++ e) ∧
      (ctxErr = some .deadlineExceeded →
        LogEntry.mk now "error" "Причина: превышен таймаут контекста"
          ∈ (sendMessage chatID botToken threadID message ctxErr httpResult now
              totalTime readTime).1) ∧
      (ctxErr = some .canceled →
        LogEntry.mk now "error" "Причина: контекст отменён"
          ∈ (sendMessage chatID botToken threadID message ctxErr httpResult now
              totalTime readTime).1)) ∧
    (∀ e c1 c2, c1 ≠ c2 →
      (sendMessage chatID botToken threadID message c1 (.doError e) now totalTime readTime).1
        ≠ (sendMessage chatID botToken threadID message c2 (.doError e) now totalTime
            readTime).1) := by
  refine ⟨?_, ?_, ?_, ?_⟩
  · cases httpResult with
    | reqError e => simp [sendMessage]
    | doError e => simp [sendMessage]
    | resp status bodyRead =>
      cases bodyRead with
      | error re => simp [sendMessage]
      | ok body =>
        by_cases hs : status = 200
        · subst hs
          simp [sendMessage]
        · simp [sendMessage, hs]
  · intro status body hres hs
    subst hres
    simp [sendMessage, hs]
  · intro e hres
    subst hres
    refine ⟨by simp [sendMessage], ?_, ?_⟩
    · intro hc
      subst hc
      simp [sendMessage]
    · intro hc
      subst hc
      simp [sendMessage]
  · intro e c1 c2 hne
    cases c1 with
    | none =>
      cases c2 with
      | none => exact absurd rfl hne
      | some v => cases v <;> simp [sendMessage]
    | some v1 =>
      cases c2 with
      | none => cases v1 <;> simp [sendMessage]
      | some v2 =>
        cases v1 <;> cases v2 <;> first
          | exact absurd rfl hne
          | simp [sendMessage]

/-- C7 witness: a 429 response with body read intact returns the typed
failure carrying status and body verbatim. -/
theorem sendMessage_outcome_classification_witness :
    (sendMessage "c" "t" "" "m" none (.resp 429 (.ok "\x7b\"ok\":false\x7d")) 0 5 1).2
      = some ("status is not ok: " ++ Nat.repr 429 ++ ", body: " ++ "\x7b\"ok\":false\x7d") :=
  (sendMessage_outcome_classification "c" "t" "" "m" none
    (.resp 429 (.ok "\x7b\"ok\":false\x7d")) 0 5 1).2.1 429 "\x7b\"ok\":false\x7d" rfl
    (by decide)

/-- C8: every proxy CONNECT response produces a log event carrying the
CONNECT status, and a non-200 status is a fatal stage — the tunnel is not
established — while the attempt is still logged with an error-severity
event; a 200 status establishes the tunnel and adds no error event. -/
theorem proxyConnect_logging (now : Nat) (proxyHost statusText : String) (statusCode : Nat) :
    (onProxyConnectResponse now proxyHost statusCode statusText).head? =
      some ⟨now, "info", "🔀 Proxy CONNECT: ответ от прокси " ++ proxyHost ++ " -> статус "
        ++ Nat.repr statusCode ++ " " ++ statusText⟩ ∧
    (statusCode ≠ 200 →
      tunnelEstablished statusCode = false ∧
      LogEntry.mk now "error" ("🔀 Proxy CONNECT: туннель не установлен, код "
          ++ Nat.repr statusCode)
        ∈ onProxyConnectResponse now proxyHost statusCode statusText) ∧
    (statusCode = 200 →
      tunnelEstablished statusCode = true ∧
      (onProxyConnectResponse now proxyHost statusCode statusText).length = 1) := by
  by_cases hs : statusCode = 200 <;>
    simp [onProxyConnectResponse, tunnelEstablished, hs]

/-- C8 witness: a 403 CONNECT response is logged with its status, fails the
tunnel, and emits the error-severity event. -/
theorem proxyConnect_logging_witness :
    tunnelEstablished 403 = false ∧
    LogEntry.mk 3 "error" ("🔀 Proxy CONNECT: туннель не установлен, код " ++ Nat.repr 403)
      ∈ onProxyConnectResponse 3 "proxy.local:3128" 403 "403 Forbidden" :=
  (proxyConnect_logging 3 "proxy.local:3128" "403 Forbidden" 403).2.1 (by decide)

theorem warnCount_append (a b : List LogEntry) :
    warnCount (a ++ b) = warnCount a + warnCount b := by
  simp [warnCount, List.filter_append]

theorem warnCount_sendMessage (chatID botToken threadID message : String)
    (ctxErr : Option CtxErr) (httpResult : HttpResult) (now totalTime readTime : Nat) :
    warnCount (sendMessage chatID botToken threadID message ctxErr httpResult now
      totalTime readTime).1 = 0 := by
  cases httpResult with
  | reqError e => simp [sendMessage, warnCount]
  | doError e =>
    cases ctxErr with
    | none => simp [sendMessage, warnCount]
    | some v => cases v <;> simp [sendMessage, warnCount]
  | resp status bodyRead =>
    cases bodyRead with
    | error re => simp [sendMessage, warnCount]
    | ok body => by_cases hs : status = 200 <;> simp [sendMessage, warnCount, hs]

theorem warnCount_cycleCall (cfg : Config) (obs : CycleObs) :
    warnCount (cycleCall cfg obs).1 = 0 :=
  warnCount_sendMessage cfg.chatID cfg.botToken cfg.messageThreadID
    (generateMessage obs.r1 obs.r2 obs.r3 obs.r4 obs.r5)
    obs.ctxErrAtFail obs.http obs.now obs.totalTime obs.readTime

theorem warnCount_cycleHeader (cfg : Config) (n : Nat) (obs : CycleObs) :
    warnCount (cycleHeader cfg n obs) = 0 := by
  simp [cycleHeader, warnCount]

theorem warnCount_cycleOutcomeEvents (n : Nat) (obs : CycleObs) (callErr : Option String) :
    warnCount (cycleOutcomeEvents n obs callErr) = 0 := by
  cases callErr with
  | none => simp [cycleOutcomeEvents, warnCount]
  | some e =>
    cases hp : obs.parentCtxErr with
    | none => simp [cycleOutcomeEvents, warnCount, hp]
    | some v => cases v <;> simp [cycleOutcomeEvents, warnCount, hp]

/-- A cycle's warning events all come from its cadence decision. -/
theorem warnCount_cycleStep (cfg : Config) (n : Nat) (obs : CycleObs) :
    warnCount (cycleStep cfg n obs).events =
      warnCount (cadenceDecision cfg obs.now obs.elapsed obs.cancelObserved).1 := by
  show warnCount (cycleHeader cfg n obs ++ (cycleCall cfg obs).1
      ++ cycleOutcomeEvents n obs (cycleCall cfg obs).2
      ++ (cadenceDecision cfg obs.now obs.elapsed obs.cancelObserved).1) = _
  rw [warnCount_append, warnCount_append, warnCount_append, warnCount_cycleHeader,
    warnCount_cycleCall, warnCount_cycleOutcomeEvents]
  omega

theorem cycleStep_calls (cfg : Config) (n : Nat) (obs : CycleObs) :
    (cycleStep cfg n obs).calls = 1 := rfl

/-- A cycle ends the loop exactly when the cancellation signal is observed at
its single reached check point. -/
theorem cycleStep_halt_iff (cfg : Config) (n : Nat) (obs : CycleObs) :
    ((cycleStep cfg n obs).action = LoopAction.halt ↔ obs.cancelObserved = true) := by
  show ((cadenceDecision cfg obs.now obs.elapsed obs.cancelObserved).2 = LoopAction.halt
    ↔ obs.cancelObserved = true)
  by_cases he : obs.elapsed < cfg.interval <;>
    by_cases hc : obs.cancelObserved = true <;>
      simp [cadenceDecision, he, hc]

/-- C1: when a cycle does not observe cancellation, its cadence decision is
exact: a cycle whose elapsed time is below the interval sleeps exactly
(interval − elapsed) and emits no warning event; a cycle whose elapsed time
reaches the interval emits exactly one warning event and continues with no
intentional delay (sleep 0). -/
theorem sendLoop_cadence_policy (cfg : Config) (n : Nat) (obs : CycleObs)
    (hcancel : obs.cancelObserved = false) :
    (obs.elapsed < cfg.interval →
      (cycleStep cfg n obs).action = LoopAction.next (cfg.interval - obs.elapsed) ∧
      warnCount (cycleStep cfg n obs).events = 0) ∧
    (cfg.interval ≤ obs.elapsed →
      (cycleStep cfg n obs).action = LoopAction.next 0 ∧
      warnCount (cycleStep cfg n obs).events = 1) := by
  constructor
  · intro h
    constructor
    · show (cadenceDecision cfg obs.now obs.elapsed obs.cancelObserved).2 = _
      simp [cadenceDecision, h, hcancel]
    · rw [warnCount_cycleStep]
      simp [cadenceDecision, h, hcancel, warnCount]
  · intro h
    have hnl : ¬ obs.elapsed < cfg.interval := by omega
    constructor
    · show (cadenceDecision cfg obs.now obs.elapsed obs.cancelObserved).2 = _
      simp [cadenceDecision, hnl, hcancel]
    · rw [warnCount_cycleStep]
      simp [cadenceDecision, hnl, hcancel, warnCount]

/-- C1 witness: with interval 5, a 1-tick cycle sleeps 4 with no warning and
a 7-tick cycle proceeds immediately with exactly one warning. -/
theorem sendLoop_cadence_policy_witness :
    ((cycleStep ⟨"", 9, 5, "c", "t", "", false⟩ 1
        ⟨0, 0, 0, 0, 0, 0, .resp 200 (.ok "b"), none, none, 1, 1, 1, 0, false⟩).action
      = LoopAction.next (5 - 1) ∧
      warnCount (cycleStep ⟨"", 9, 5, "c", "t", "", false⟩ 1
        ⟨0, 0, 0, 0, 0, 0, .resp 200 (.ok "b"), none, none, 1, 1, 1, 0, false⟩).events = 0) ∧
    ((cycleStep ⟨"", 9, 5, "c", "t", "", false⟩ 2
        ⟨0, 0, 0, 0, 0, 0, .resp 200 (.ok "b"), none, none, 7, 7, 7, 0, false⟩).action
      = LoopAction.next 0 ∧
      warnCount (cycleStep ⟨"", 9, 5, "c", "t", "", false⟩ 2
        ⟨0, 0, 0, 0, 0, 0, .resp 200 (.ok "b"), none, none, 7, 7, 7, 0, false⟩).events = 1) :=
  ⟨(sendLoop_cadence_policy ⟨"", 9, 5, "c", "t", "", false⟩ 1
      ⟨0, 0, 0, 0, 0, 0, .resp 200 (.ok "b"), none, none, 1, 1, 1, 0, false⟩ rfl).1
      (by decide),
   (sendLoop_cadence_policy ⟨"", 9, 5, "c", "t", "", false⟩ 2
      ⟨0, 0, 0, 0, 0, 0, .resp 200 (.ok "b"), none, none, 7, 7, 7, 0, false⟩ rfl).2
      (by decide)⟩

/-- C2: per cycle the loop consults the cancellation signal at one of exactly
two points — the `select` inside the inter-cycle sleep, or the
`select`/`default` taken when no sleep occurs — and a cycle halts the loop
exactly when the signal is observed there; once a cycle observes
cancellation after a prefix of cancellation-free cycles, the loop stops
having issued exactly one call per completed cycle and none afterwards. -/
theorem sendLoop_cancellation_two_points (cfg : Config) :
    (∀ (n : Nat) (obs : CycleObs),
      ((cycleStep cfg n obs).action = LoopAction.halt ↔ obs.cancelObserved = true)) ∧
    (∀ (pre post : List CycleObs) (obsC : CycleObs) (m : Nat),
      (∀ o ∈ pre, o.cancelObserved = false) → obsC.cancelObserved = true →
      (loopRun cfg m (pre ++ obsC :: post)).stopped = true ∧
      (loopRun cfg m (pre ++ obsC :: post)).calls = pre.length + 1) := by
  constructor
  · exact fun n obs => cycleStep_halt_iff cfg n obs
  · intro pre
    induction pre with
    | nil =>
      intro post obsC m hpre hC
      have hhalt : (cycleStep cfg (m + 1) obsC).action = LoopAction.halt :=
        (cycleStep_halt_iff cfg (m + 1) obsC).mpr hC
      rw [List.nil_append]
      constructor <;> simp [loopRun, hhalt, cycleStep_calls]
    | cons o pre ih =>
      intro post obsC m hpre hC
      have ho : o.cancelObserved = false := hpre o (List.mem_cons_self o pre)
      have hnothalt : (cycleStep cfg (m + 1) o).action ≠ LoopAction.halt := by
        intro hcase
        rw [cycleStep_halt_iff, ho] at hcase
        simp at hcase
      obtain ⟨d, hd⟩ : ∃ d, (cycleStep cfg (m + 1) o).action = LoopAction.next d := by
        cases hcase : (cycleStep cfg (m + 1) o).action with
        | halt => exact absurd hcase hnothalt
        | next d => exact ⟨d, rfl⟩
      have IH := ih post obsC (m + 1) (fun x hx => hpre x (List.mem_cons_of_mem o hx)) hC
      rw [List.cons_append]
      constructor
      · simp [loopRun, hd, IH.1]
      · simp [loopRun, hd, cycleStep_calls, IH.2]
        omega

/-- C2 witness: a first cycle that observes cancellation stops the loop with
exactly one call issued and the trailing oracle untouched. -/
theorem sendLoop_cancellation_two_points_witness :
    (loopRun ⟨"", 9, 5, "c", "t", "", false⟩ 0
      ([] ++ ⟨0, 0, 0, 0, 0, 0, .resp 200 (.ok "b"), none, none, 1, 1, 1, 0, true⟩ ::
        [⟨0, 0, 0, 0, 0, 0, .resp 200 (.ok "b"), none, none, 1, 1, 1, 0, false⟩])).stopped
      = true ∧
    (loopRun ⟨"", 9, 5, "c", "t", "", false⟩ 0
      ([] ++ ⟨0, 0, 0, 0, 0, 0, .resp 200 (.ok "b"), none, none, 1, 1, 1, 0, true⟩ ::
        [⟨0, 0, 0, 0, 0, 0, .resp 200 (.ok "b"), none, none, 1, 1, 1, 0, false⟩])).calls
      = List.length ([] : List CycleObs) + 1 :=
  (sendLoop_cancellation_two_points ⟨"", 9, 5, "c", "t", "", false⟩).2 []
    [⟨0, 0, 0, 0, 0, 0, .resp 200 (.ok "b"), none, none, 1, 1, 1, 0, false⟩]
    ⟨0, 0, 0, 0, 0, 0, .resp 200 (.ok "b"), none, none, 1, 1, 1, 0, true⟩ 0
    (by simp) rfl

/-- C3: a failed call is logged at error severity with the elapsed time and
the error details, is not retried (the cycle issues exactly one call), and
never terminates the loop by itself: the cycle still proceeds to its cadence
decision and halts only on an observed cancellation; a loop whose oracle
never observes cancellation never stops, whatever the call outcomes. -/
theorem sendLoop_failure_absorbed (cfg : Config) (n : Nat) (obs : CycleObs) (e : String)
    (herr : (cycleCall cfg obs).2 = some e) :
    LogEntry.mk obs.now "error" ("РЕЗУЛЬТАТ #" ++ Nat.repr n ++ ": ОШИБКА за "
        ++ Nat.repr obs.requestDuration) ∈ (cycleStep cfg n obs).events ∧
    LogEntry.mk obs.now "error" ("Детали ошибки: " ++ e) ∈ (cycleStep cfg n obs).events ∧
    (cycleStep cfg n obs).calls = 1 ∧
    (cycleStep cfg n obs).action =
      (cadenceDecision cfg obs.now obs.elapsed obs.cancelObserved).2 ∧
    (obs.cancelObserved = false → (cycleStep cfg n obs).action ≠ LoopAction.halt) ∧
    (∀ (m : Nat) (obsList : List CycleObs), (∀ o ∈ obsList, o.cancelObserved = false) →
      (loopRun cfg m obsList).stopped = false) := by
  refine ⟨?_, ?_, rfl, rfl, ?_, ?_⟩
  · show _ ∈ cycleHeader cfg n obs ++ (cycleCall cfg obs).1
      ++ cycleOutcomeEvents n obs (cycleCall cfg obs).2
      ++ (cadenceDecision cfg obs.now obs.elapsed obs.cancelObserved).1
    rw [herr]
    simp [cycleOutcomeEvents]
  · show _ ∈ cycleHeader cfg n obs ++ (cycleCall cfg obs).1
      ++ cycleOutcomeEvents n obs (cycleCall cfg obs).2
      ++ (cadenceDecision cfg obs.now obs.elapsed obs.cancelObserved).1
    rw [herr]
    simp [cycleOutcomeEvents]
  · intro hc hcase
    rw [cycleStep_halt_iff, hc] at hcase
    simp at hcase
  · intro m obsList
    induction obsList generalizing m with
    | nil => intro _; rfl
    | cons o rest ih =>
      intro hall
      have ho : o.cancelObserved = false := hall o (List.mem_cons_self o rest)
      obtain ⟨d, hd⟩ : ∃ d, (cycleStep cfg (m + 1) o).action = LoopAction.next d := by
        cases hcase : (cycleStep cfg (m + 1) o).action with
        | halt =>
          rw [cycleStep_halt_iff, ho] at hcase
          exact absurd hcase (by simp)
        | next d => exact ⟨d, rfl⟩
      have IH := ih (m + 1) (fun x hx => hall x (List.mem_cons_of_mem o hx))
      simp [loopRun, hd, IH]

/-- C3 witness: a transport failure is logged with its details, the cycle
issues exactly one call, and a cancellation-free two-cycle run keeps going. -/
theorem sendLoop_failure_absorbed_witness :
    LogEntry.mk 0 "error" ("Детали ошибки: " ++ ("выполнение запроса: " ++ "dial tcp: timeout"))
      ∈ (cycleStep ⟨"", 9, 5, "c", "t", "", false⟩ 1
          ⟨0, 0, 0, 0, 0, 0, .doError "dial tcp: timeout", none, none, 1, 1, 1, 0,
            false⟩).events ∧
    (cycleStep ⟨"", 9, 5, "c", "t", "", false⟩ 1
      ⟨0, 0, 0, 0, 0, 0, .doError "dial tcp: timeout", none, none, 1, 1, 1, 0,
        false⟩).calls = 1 :=
  ⟨(sendLoop_failure_absorbed ⟨"", 9, 5, "c", "t", "", false⟩ 1
      ⟨0, 0, 0, 0, 0, 0, .doError "dial tcp: timeout", none, none, 1, 1, 1, 0, false⟩
      ("выполнение запроса: " ++ "dial tcp: timeout") rfl).2.1,
   (sendLoop_failure_absorbed ⟨"", 9, 5, "c", "t", "", false⟩ 1
      ⟨0, 0, 0, 0, 0, 0, .doError "dial tcp: timeout", none, none, 1, 1, 1, 0, false⟩
      ("выполнение запроса: " ++ "dial tcp: timeout") rfl).2.2.1⟩
